import Mathlib

/-!
Verification of the unit-management subsystem of cubeviz
(src/cubeviz/controls/units.py), shallowly embedded in Lean 4.

Numeric values (wavelengths, scales, redshift) are modelled as rationals.
Astropy unit objects are modelled by the structure AUnit, which records the
observable attributes the source code reads: the canonical string form
(to_string), the unscaled string form, the numeric scale, the SI factor used
for dimensional conversion, the physical-type tags and the decomposed form.
The astropy parser u.Unit is modelled as a finite lookup table of enabled
units (structure UnitSystem); a failed lookup corresponds to the ValueError
raised by astropy.  Python exceptions are modelled with Except PyErr.
-/

namespace Cubeviz

/-- Model of an astropy unit object: the attributes the source reads. -/
structure AUnit where
  str : String
  unscaled_str : String
  scale : ℚ
  si : ℚ
  physicalType : List String
  decomposed : String
deriving DecidableEq, Repr

/-- Wavelength units used by UnitController (u.m, u.cm, u.mm, u.um, u.nm, u.AA). -/
def u_m : AUnit := ⟨"m", "m", 1, 1, ["length"], "m"⟩

def u_cm : AUnit := ⟨"cm", "cm", 1, 1/100, ["length"], "m"⟩

def u_mm : AUnit := ⟨"mm", "mm", 1, 1/1000, ["length"], "m"⟩

def u_um : AUnit := ⟨"um", "um", 1, 1/1000000, ["length"], "m"⟩

def u_nm : AUnit := ⟨"nm", "nm", 1, 1/1000000000, ["length"], "m"⟩

def u_AA : AUnit := ⟨"Angstrom", "Angstrom", 1, 1/10000000000, ["length"], "m"⟩

/-- Jansky, a spectral flux density unit. -/
def u_Jy : AUnit := ⟨"Jy", "Jy", 1, 1, ["spectral flux density"], "kg / s2"⟩

def u_mJy : AUnit := ⟨"mJy", "mJy", 1, 1/1000, ["spectral flux density"], "kg / s2"⟩

def u_uJy : AUnit := ⟨"uJy", "uJy", 1, 1/1000000, ["spectral flux density"], "kg / s2"⟩

/-- erg / (cm2 Hz s), spectral flux density per frequency. -/
def u_fnu : AUnit :=
  ⟨"erg / (cm2 Hz s)", "erg / (cm2 Hz s)", 1, 1, ["spectral flux density"], "kg / s2"⟩

/-- erg / (cm2 s um), spectral flux density per wavelength. -/
def u_flam_um : AUnit :=
  ⟨"erg / (cm2 s um)", "erg / (cm2 s um)", 1, 1, ["spectral flux density wav"], "kg / (m s3)"⟩

/-- erg / (Angstrom cm2 s), spectral flux density per wavelength. -/
def u_flam : AUnit :=
  ⟨"erg / (Angstrom cm2 s)", "erg / (Angstrom cm2 s)", 1, 1,
   ["spectral flux density wav"], "kg / (m s3)"⟩

/-- erg / (cm2 s), an energy flux (not a spectral flux density). -/
def u_erg_cm2_s : AUnit :=
  ⟨"erg / (cm2 s)", "erg / (cm2 s)", 1, 1, ["energy flux"], "kg / s3"⟩

def u_pix : AUnit := ⟨"pix", "pix", 1, 1, [], "pix"⟩

/-- spaxel, defined by u.def_unit, representing u.astrophys.pix. -/
def u_spaxel : AUnit := ⟨"spaxel", "spaxel", 1, 1, [], "pix"⟩

def u_sr : AUnit := ⟨"sr", "sr", 1, 1, ["solid angle"], "sr"⟩

def u_deg2 : AUnit := ⟨"deg2", "deg2", 1, 1, ["solid angle"], "sr"⟩

def u_arcmin2 : AUnit := ⟨"arcmin2", "arcmin2", 1, 1, ["solid angle"], "sr"⟩

def u_arcsec2 : AUnit := ⟨"arcsec2", "arcsec2", 1, 1, ["solid angle"], "sr"⟩

/-- Python exceptions that the embedded code can raise. -/
inductive PyErr where
  | valueError (msg : String)
  | attributeError (msg : String)
  | nameError (msg : String)
  | typeError (msg : String)
deriving DecidableEq, Repr

/-- An item held by a registry runtime list: Python lets the caller hand a
string, an astropy unit object, or anything else (e.g. None). -/
inductive RegItem where
  | str (s : String)
  | unit (a : AUnit)
  | pynone
deriving DecidableEq, Repr

/-- The body of the listing loop in both registries: a str is kept as is, a
UnitBase contributes its to_string, anything else is skipped. -/
def itemToString : RegItem → Option String
  | RegItem.str s => some s
  | RegItem.unit a => some a.str
  | RegItem.pynone => none

/-- Python sorted(list(set(xs))): the distinct elements in ascending
lexicographic order. -/
def pySortedSet (xs : List String) : List String :=
  List.insertionSort (fun a b => a ≤ b) xs.dedup

/-- FluxUnitRegistry: mutable state is the runtime_defined_units list. -/
structure FluxUnitRegistry where
  runtime_defined_units : List RegItem
deriving DecidableEq, Repr

namespace FluxUnitRegistry

/-- FluxUnitRegistry._locally_defined_units. -/
def locally_defined_units : List AUnit :=
  [u_uJy, u_mJy, u_Jy, u_fnu, u_flam_um, u_erg_cm2_s]

/-- FluxUnitRegistry._equivalencies_defined_units: the spectral-flux-density
units occurring in astropy's u.spectral_density(3500 * u.AA) equivalency
pairs.  The contents are a fixed snapshot of external astropy data. -/
def equivalencies_defined_units : List AUnit :=
  [u_flam, u_fnu, u_Jy]

/-- FluxUnitRegistry.get_unit_list. -/
def get_unit_list (r : FluxUnitRegistry) : List String :=
  let item_list :=
    (equivalencies_defined_units.map RegItem.unit)
      ++ (locally_defined_units.map RegItem.unit)
      ++ r.runtime_defined_units
  pySortedSet (item_list.filterMap itemToString)

/-- FluxUnitRegistry.add_unit: appends strings and unit objects not already
present; silently ignores anything else. -/
def add_unit (r : FluxUnitRegistry) (item : RegItem) : FluxUnitRegistry :=
  match item with
  | RegItem.pynone => r
  | _ =>
      if item ∈ r.runtime_defined_units then r
      else ⟨r.runtime_defined_units ++ [item]⟩

end FluxUnitRegistry

/-- AreaUnitRegistry: runtime solid-angle and pixel unit lists. -/
structure AreaUnitRegistry where
  runtime_solid_angle_units : List RegItem
  runtime_pixel_units : List RegItem
deriving DecidableEq, Repr

namespace AreaUnitRegistry

def locally_defined_solid_angle_units : List AUnit := []

def locally_defined_pixel_units : List AUnit := [u_spaxel]

/-- Squares of the units equivalent to u.degree (fixed snapshot of
external astropy data). -/
def astropy_derived_solid_angle_units : List AUnit :=
  [u_deg2, u_arcmin2, u_arcsec2]

def astropy_defined_solid_angle_units : List AUnit := [u_sr]

def pixel_units : List AUnit := [u_pix]

/-- AreaUnitRegistry.get_unit_list with the pixel_only / solid_angle_only
filters. -/
def get_unit_list (r : AreaUnitRegistry)
    (pixel_only : Bool) (solid_angle_only : Bool) : List String :=
  let item_list₁ :=
    if solid_angle_only then []
    else
      r.runtime_pixel_units
        ++ (locally_defined_pixel_units.map RegItem.unit)
        ++ (pixel_units.map RegItem.unit)
  let item_list₂ :=
    if pixel_only then []
    else
      r.runtime_solid_angle_units
        ++ (locally_defined_solid_angle_units.map RegItem.unit)
        ++ (astropy_defined_solid_angle_units.map RegItem.unit)
        ++ (astropy_derived_solid_angle_units.map RegItem.unit)
  pySortedSet ((item_list₁ ++ item_list₂).filterMap itemToString)

/-- AreaUnitRegistry.add_pixel_unit. -/
def add_pixel_unit (r : AreaUnitRegistry) (item : RegItem) : AreaUnitRegistry :=
  match item with
  | RegItem.pynone => r
  | _ =>
      if item ∈ r.runtime_pixel_units then r
      else { r with runtime_pixel_units := r.runtime_pixel_units ++ [item] }

/-- AreaUnitRegistry.add_solid_angle_unit. -/
def add_solid_angle_unit (r : AreaUnitRegistry) (item : RegItem) : AreaUnitRegistry :=
  match item with
  | RegItem.pynone => r
  | _ =>
      if item ∈ r.runtime_solid_angle_units then r
      else { r with runtime_solid_angle_units := r.runtime_solid_angle_units ++ [item] }

end AreaUnitRegistry

/-- The module-level FLUX_UNIT_REGISTRY singleton, as first constructed. -/
def FLUX_UNIT_REGISTRY_init : FluxUnitRegistry := ⟨[]⟩

/-- The module-level AREA_UNIT_REGISTRY singleton, as first constructed. -/
def AREA_UNIT_REGISTRY_init : AreaUnitRegistry := ⟨[], []⟩

/-- A call to one of the two mutators of AreaUnitRegistry. -/
inductive AreaOp where
  | pixel (item : RegItem)
  | solidAngle (item : RegItem)
deriving DecidableEq, Repr

/-- Apply a sequence of add_unit calls to a FluxUnitRegistry. -/
def applyFluxOps (ops : List RegItem) (r : FluxUnitRegistry) : FluxUnitRegistry :=
  ops.foldl FluxUnitRegistry.add_unit r

/-- Apply a sequence of add_pixel_unit / add_solid_angle_unit calls. -/
def applyAreaOps (ops : List AreaOp) (r : AreaUnitRegistry) : AreaUnitRegistry :=
  ops.foldl
    (fun acc op =>
      match op with
      | AreaOp.pixel item => acc.add_pixel_unit item
      | AreaOp.solidAngle item => acc.add_solid_angle_unit item)
    r

lemma pySortedSet_nodup (xs : List String) : (pySortedSet xs).Nodup :=
  ((List.perm_insertionSort _ xs.dedup).nodup_iff).mpr xs.nodup_dedup

lemma pySortedSet_sorted (xs : List String) :
    (pySortedSet xs).Sorted (fun a b => a ≤ b) :=
  List.sorted_insertionSort _ xs.dedup

lemma mem_pySortedSet {x : String} {xs : List String} :
    x ∈ pySortedSet xs ↔ x ∈ xs := by
  unfold pySortedSet
  rw [List.mem_insertionSort, List.mem_dedup]

/-! ## UnitController: wavelength axis, display unit and redshift -/

def OBS_WAVELENGTH_TEXT : String := "Obs Wavelength"

def REST_WAVELENGTH_TEXT : String := "Rest Wavelength"

/-- UnitController._units. -/
def uc_units : List AUnit := [u_m, u_cm, u_mm, u_um, u_nm, u_AA]

/-- UnitController._units_titles: the title-cased astropy long names. -/
def uc_units_titles : List String :=
  ["Meter", "Centimeter", "Millimeter", "Micrometer", "Nanometer", "Angstrom"]

/-- A Python value held in the wavelength slots: None, the boolean False
(the sentinel returned by convert_wavelengths), or an array of rationals. -/
inductive PyVal where
  | pynone
  | falseV
  | vals (l : List ℚ)
deriving DecidableEq, Repr

/-- Outward calls made by UnitController: assignments to the slice
controller's wavelength_label, set_wavelengths pushes to the layout and to
the slice controller, and emissions on the specviz change_redshift channel. -/
inductive UCEvent where
  | sliceLabel (label : String)
  | layoutSetWavelengths (v : PyVal) (unit : AUnit)
  | sliceSetWavelengths (v : PyVal) (unit : AUnit)
  | emitChangeRedshift (z : ℚ)
deriving DecidableEq, Repr

/-- UnitController state.  original_wavelengths is None when the layout had
no wavelength array; wavelengths is the attribute created by the redshift
setter (absent before the first call). -/
structure UCState where
  original_wavelengths : Option (List ℚ)
  new_wavelengths : PyVal
  original_units : AUnit
  new_units : AUnit
  redshift_z : ℚ
  wavelength_textbox_label : String
  wavelengths : Option (List ℚ)
deriving DecidableEq, Repr

/-- UnitController.convert_wavelengths: converts the values from old to new
units through the quantity arithmetic (a multiplication by the ratio of the
SI factors); returns the Python False sentinel when the input is None. -/
def convert_wavelengths (old_wavelengths : Option (List ℚ))
    (old_units new_units : AUnit) : PyVal :=
  match old_wavelengths with
  | some ws => PyVal.vals (ws.map (fun w => w * old_units.si / new_units.si))
  | none => PyVal.falseV

/-- The redshift_z setter.  Returns the successor state together with the
ordered outward calls.  Redshift values are modelled as rationals, so the
new_z is not None test of the source is always true here.  When the
original wavelength array is None the numpy arithmetic of the source raises
a TypeError, modelled as an error result. -/
def set_redshift_z (s : UCState) (new_z : ℚ) : Except PyErr (UCState × List UCEvent) :=
  if s.redshift_z = new_z then Except.ok (s, [])
  else
    match s.original_wavelengths with
    | none =>
        Except.error (PyErr.typeError "unsupported operand type for NoneType")
    | some ws =>
        let s₁ := { s with redshift_z := new_z }
        let branch :=
          if 0 < new_z then
            ({ s₁ with wavelength_textbox_label := REST_WAVELENGTH_TEXT },
             [UCEvent.sliceLabel REST_WAVELENGTH_TEXT,
              UCEvent.layoutSetWavelengths
                (PyVal.vals (ws.map (fun w => (1 + new_z) * w))) s₁.new_units])
          else
            ({ s₁ with wavelength_textbox_label := OBS_WAVELENGTH_TEXT },
             [UCEvent.sliceLabel OBS_WAVELENGTH_TEXT,
              UCEvent.layoutSetWavelengths (PyVal.vals ws) s₁.new_units])
        let new_wls := ws.map (fun w => w / (1 + new_z))
        let s₂ := { branch.1 with wavelengths := some new_wls }
        Except.ok (s₂,
          branch.2 ++
            [UCEvent.sliceSetWavelengths (PyVal.vals new_wls) s₁.new_units,
             UCEvent.emitChangeRedshift new_z])

/-- UnitController.change_redshift, the listener for the specviz
change_redshift message: ignores an incoming value equal to the stored one,
otherwise delegates to the redshift_z setter. -/
def change_redshift (s : UCState) (redshift : ℚ) : Except PyErr (UCState × List UCEvent) :=
  if s.redshift_z = redshift then Except.ok (s, [])
  else set_redshift_z s redshift

/-- UnitController.on_combobox_change: resolves the display title to a unit
(list.index raises ValueError when the title is unknown), converts the
original wavelengths to it, stores the result, and returns early only when
the stored result is None. -/
def on_combobox_change (s : UCState) (new_unit_name : String) :
    Except PyErr (UCState × List UCEvent) :=
  match uc_units_titles.indexOf? new_unit_name with
  | none => Except.error (PyErr.valueError "not in list")
  | some i =>
      let nu := uc_units.getD i u_m
      let res := convert_wavelengths s.original_wavelengths s.original_units nu
      let s₁ := { s with new_units := nu, new_wavelengths := res }
      if res = PyVal.pynone then Except.ok (s₁, [])
      else Except.ok (s₁, [UCEvent.layoutSetWavelengths res nu])

/-! ## FluxUnitController: classification of per-component units -/

/-- The enabled astropy unit namespace: u.Unit is modelled as a lookup of
the unit string among the enabled units; a miss corresponds to the
ValueError astropy raises for an unrecognised string. -/
structure UnitSystem where
  table : List (String × AUnit)
deriving DecidableEq, Repr

/-- u.Unit applied to a string. -/
def UnitSystem.parse (us : UnitSystem) (s : String) : Option AUnit :=
  us.table.lookup s

/-- u.add_enabled_units. -/
def add_enabled_units (us : UnitSystem) (a : AUnit) : UnitSystem :=
  ⟨us.table ++ [(a.str, a)]⟩

/-- The CubeVizUnit hierarchy as a tagged variant.  The base class by
itself is never instantiated by the controller, so only the three concrete
variants appear.  SpectralFluxDensity carries the constructor arguments of
the source class; the unit and sub-unit slots hold None when the
corresponding parse returned None. -/
inductive CubeVizUnit where
  | NoneUnit
  | UnknownUnit (unit : Option AUnit) (unit_string : String)
  | SpectralFluxDensity (unit : Option AUnit) (unit_string : String)
      (numeric : ℚ) (spectral_flux_density : Option AUnit)
      (area : Option AUnit) (is_formatted : Bool)
deriving DecidableEq, Repr

namespace CubeVizUnit

/-- The unit attribute (self._unit): the base constructor receives None for
NoneUnit, and the possibly-None parsed unit otherwise. -/
def unit : CubeVizUnit → Option AUnit
  | NoneUnit => none
  | UnknownUnit u _ => u
  | SpectralFluxDensity u _ _ _ _ _ => u

/-- The unit_string attribute. -/
def unit_string : CubeVizUnit → String
  | NoneUnit => ""
  | UnknownUnit _ s => s
  | SpectralFluxDensity _ s _ _ _ _ => s

/-- The is_convertable attribute: False in the base constructor, set True
only by the SpectralFluxDensity constructor. -/
def is_convertable : CubeVizUnit → Bool
  | SpectralFluxDensity _ _ _ _ _ _ => true
  | _ => false

/-- The type tag (self._type). -/
def typeTag : CubeVizUnit → String
  | NoneUnit => "NoneUnit"
  | UnknownUnit _ _ => "UnknownUnit"
  | SpectralFluxDensity _ _ _ _ _ is_formatted =>
      if is_formatted then "FormattedSpectralFluxDensity" else "SpectralFluxDensity"

/-- True exactly for a SpectralFluxDensity built with is_formatted. -/
def isFormattedSFD : CubeVizUnit → Bool
  | SpectralFluxDensity _ _ _ _ _ is_formatted => is_formatted
  | _ => false

/-- The spectral_flux_density attribute, when the variant has one. -/
def sfd : CubeVizUnit → Option (Option AUnit)
  | SpectralFluxDensity _ _ _ s _ _ => some s
  | _ => none

end CubeVizUnit

/-- The SpectralFluxDensity constructor together with its side effect on
the FLUX_UNIT_REGISTRY singleton: FLUX_UNIT_REGISTRY.add_unit is called on
the spectral_flux_density argument (a no-op when that argument is None). -/
def mkSpectralFluxDensity (fr : FluxUnitRegistry) (unit : Option AUnit)
    (unit_string : String) (numeric : ℚ) (spectral_flux_density : Option AUnit)
    (area : Option AUnit) (is_formatted : Bool) : CubeVizUnit × FluxUnitRegistry :=
  (CubeVizUnit.SpectralFluxDensity unit unit_string numeric spectral_flux_density
      area is_formatted,
   fr.add_unit
     (match spectral_flux_density with
      | some a => RegItem.unit a
      | none => RegItem.pynone))

/-- An alias record of the registered_units configuration table.  The code
indexes the numeric, spectral_flux_density and area keys unconditionally
and the astropy_unit_string key conditionally; numeric may hold a falsy
value (null, modelled none, or zero). -/
structure AliasRecord where
  astropy_unit_string : Option String
  numeric : Option ℚ
  spectral_flux_density : String
  area : String
deriving DecidableEq, Repr

/-- Python truthiness of the numeric field. -/
def numericTruthy : Option ℚ → Bool
  | some q => q != 0
  | none => false

/-- The unit string the registered branch actually parses: the record's
astropy_unit_string when that key is present, the raw string otherwise. -/
def effective_unit_string (rec : AliasRecord) (s : String) : String :=
  match rec.astropy_unit_string with
  | some s₂ => s₂
  | none => s

/-- FluxUnitController state: the alias table loaded from configuration,
the per-component map, and the FLUX_UNIT_REGISTRY singleton threaded
explicitly because SpectralFluxDensity construction mutates it. -/
structure FUCState where
  registered_units : List (String × AliasRecord)
  components : List (String × CubeVizUnit)
  flux : FluxUnitRegistry
deriving DecidableEq, Repr

/-- Python dict assignment d[k] = v: replace in place if present, append
otherwise. -/
def dictSet (m : List (String × CubeVizUnit)) (k : String) (v : CubeVizUnit) :
    List (String × CubeVizUnit) :=
  if (m.lookup k).isSome then
    m.map (fun p => if p.1 = k then (k, v) else p)
  else m ++ [(k, v)]

/-- The argument handed to add_component_unit / unit_to_string: None, a
string, a unit object, a Quantity, or a value of any other type. -/
inductive UnitArg where
  | pynone
  | str (s : String)
  | unit (a : AUnit)
  | quantity (a : AUnit)
  | other (descr : String)
deriving DecidableEq, Repr

/-- True for the argument types unit_to_string accepts. -/
def UnitArg.isValidType : UnitArg → Bool
  | UnitArg.other _ => false
  | _ => true

/-- FluxUnitController.string_to_unit: empty and unparseable strings both
come back as None (the ValueError is caught and logged). -/
def string_to_unit (us : UnitSystem) (unit_string : String) : Option AUnit :=
  if unit_string = "" then none else us.parse unit_string

/-- FluxUnitController.unit_to_string: raises ValueError on any argument
that is not None, a str, a Unit or a Quantity. -/
def unit_to_string : UnitArg → Except PyErr String
  | UnitArg.pynone => Except.ok ""
  | UnitArg.str s => Except.ok s
  | UnitArg.unit a => Except.ok a.str
  | UnitArg.quantity a => Except.ok a.str
  | UnitArg.other d =>
      Except.error (PyErr.valueError ("Invalid input unit type " ++ d ++ "."))

/-- FluxUnitController.add_component_unit.  In the registered branch, when
the record's numeric field is falsy the code reads astropy_unit.scale, an
AttributeError when the parse returned None. -/
def add_component_unit (us : UnitSystem) (st : FUCState)
    (component_id : String) (unitArg : UnitArg) :
    Except PyErr (CubeVizUnit × FUCState) :=
  match unit_to_string unitArg with
  | Except.error e => Except.error e
  | Except.ok unit_string =>
    if unit_string = "" then
      let cvu := CubeVizUnit.NoneUnit
      Except.ok (cvu, { st with components := dictSet st.components component_id cvu })
    else
      match st.registered_units.lookup unit_string with
      | some registered_unit =>
          let unit_string₂ := effective_unit_string registered_unit unit_string
          let astropy_unit := string_to_unit us unit_string₂
          let numeric? : Except PyErr ℚ :=
            if numericTruthy registered_unit.numeric then
              Except.ok (registered_unit.numeric.getD 0)
            else
              match astropy_unit with
              | some a => Except.ok a.scale
              | none =>
                  Except.error
                    (PyErr.attributeError "NoneType object has no attribute scale")
          match numeric? with
          | Except.error e => Except.error e
          | Except.ok numeric =>
              let spectral_flux_density :=
                string_to_unit us registered_unit.spectral_flux_density
              let area := string_to_unit us registered_unit.area
              let built :=
                mkSpectralFluxDensity st.flux astropy_unit unit_string₂ numeric
                  spectral_flux_density area true
              Except.ok (built.1,
                { st with
                    flux := built.2,
                    components := dictSet st.components component_id built.1 })
      | none =>
          match string_to_unit us unit_string with
          | some astropy_unit =>
              if "spectral flux density" ∈ astropy_unit.physicalType then
                let spectral_flux_density := string_to_unit us astropy_unit.unscaled_str
                let built :=
                  mkSpectralFluxDensity st.flux (some astropy_unit) unit_string
                    astropy_unit.scale spectral_flux_density none false
                Except.ok (built.1,
                  { st with
                      flux := built.2,
                      components := dictSet st.components component_id built.1 })
              else
                let cvu := CubeVizUnit.UnknownUnit (some astropy_unit) unit_string
                Except.ok (cvu,
                  { st with components := dictSet st.components component_id cvu })
          | none =>
              let cvu := CubeVizUnit.UnknownUnit none unit_string
              Except.ok (cvu,
                { st with components := dictSet st.components component_id cvu })

/-- FluxUnitController.remove_component_unit. -/
def remove_component_unit (st : FUCState) (component_id : String) : FUCState :=
  { st with components := st.components.filter (fun p => p.1 ≠ component_id) }

/-- FluxUnitController.get_component_unit: the unit attribute of the stored
CubeVizUnit when the id is present, None otherwise. -/
def get_component_unit (st : FUCState) (component_id : String) : Option AUnit :=
  match st.components.lookup component_id with
  | some cvu => cvu.unit
  | none => none

/-- The classification result of an add_component_unit call, when it did
not raise. -/
def classifiedUnit (r : Except PyErr (CubeVizUnit × FUCState)) : Option CubeVizUnit :=
  match r with
  | Except.ok (cvu, _) => some cvu
  | Except.error _ => none

/-- The successor controller state of an add_component_unit call, when it
did not raise. -/
def resultState (r : Except PyErr (CubeVizUnit × FUCState)) : Option FUCState :=
  match r with
  | Except.ok (_, st) => some st
  | Except.error _ => none

/-! ## FluxUnitController construction: the new_units configuration loop -/

/-- One entry of the new_units configuration section. -/
structure NewUnitEntry where
  name : String
  base : Option String
deriving DecidableEq, Repr

/-- The global unit machinery touched by register_new_unit: the enabled /
unit namespace and the two registry singletons. -/
structure GlobalUnits where
  us : UnitSystem
  flux : FluxUnitRegistry
  area : AreaUnitRegistry
deriving DecidableEq, Repr

/-- u.def_unit(name) and u.def_unit(name, base): a named unit whose
physical characteristics come from the base when one is given. -/
def def_unit (name : String) (base : Option AUnit) : AUnit :=
  match base with
  | some b =>
      { str := name, unscaled_str := name, scale := 1, si := b.si,
        physicalType := b.physicalType, decomposed := b.decomposed }
  | none =>
      { str := name, unscaled_str := name, scale := 1, si := 1,
        physicalType := [], decomposed := name }

/-- FluxUnitController.register_new_unit: enables the unit globally and
fans it into the flux and/or area registries according to its physical
type and its decomposition against u.pix. -/
def register_new_unit (g : GlobalUnits) (new_unit : AUnit) : GlobalUnits :=
  let us' := add_enabled_units g.us new_unit
  let flux' :=
    if "spectral flux density" ∈ new_unit.physicalType then
      g.flux.add_unit (RegItem.unit new_unit)
    else g.flux
  let area₁ :=
    if new_unit.decomposed = u_pix.decomposed then
      g.area.add_pixel_unit (RegItem.unit new_unit)
    else g.area
  let area₂ :=
    if "solid angle" ∈ new_unit.physicalType then
      area₁.add_solid_angle_unit (RegItem.unit new_unit)
    else area₁
  ⟨us', flux', area₂⟩

/-- The constructor loop over cfg new_units.  The accumulator
new_astropy_unit models the Python local variable of the same name: it is
unbound (none) before the first assignment and keeps its previous value
across iterations whose try succeeds, because the except branch that
assigns it only runs when u.Unit(name) raises ValueError.  The
register_new_unit call at the end of each iteration therefore raises
NameError when the variable is still unbound, and a u.Unit(base) failure
inside the except branch propagates. -/
def load_new_units_loop (g : GlobalUnits) (entries : List NewUnitEntry)
    (new_astropy_unit : Option AUnit) : Except PyErr GlobalUnits :=
  match entries with
  | [] => Except.ok g
  | e :: rest =>
      let assigned : Except PyErr (Option AUnit) :=
        if (g.us.parse e.name).isSome then Except.ok new_astropy_unit
        else
          match e.base with
          | some b =>
              match g.us.parse b with
              | some bu => Except.ok (some (def_unit e.name (some bu)))
              | none => Except.error (PyErr.valueError "invalid base unit string")
          | none => Except.ok (some (def_unit e.name none))
      match assigned with
      | Except.error err => Except.error err
      | Except.ok none =>
          Except.error (PyErr.nameError "name new_astropy_unit is not defined")
      | Except.ok (some a) =>
          load_new_units_loop (register_new_unit g a) rest (some a)

/-! ## Concrete fixtures used by witnesses and counterexamples -/

/-- A typical enabled-unit table. -/
def usStd : UnitSystem :=
  ⟨[("m", u_m), ("cm", u_cm), ("mm", u_mm), ("um", u_um), ("nm", u_nm),
    ("Angstrom", u_AA), ("Jy", u_Jy), ("mJy", u_mJy), ("uJy", u_uJy),
    ("erg / (Angstrom cm2 s)", u_flam), ("erg / (cm2 Hz s)", u_fnu),
    ("spaxel", u_spaxel), ("pix", u_pix), ("sr", u_sr)]⟩

/-- A well-formed alias record: truthy numeric, parseable sub-units. -/
def recGood : AliasRecord := ⟨none, some 1, "Jy", "spaxel"⟩

/-- A malformed alias record: falsy numeric and an unparseable raw string. -/
def recBad : AliasRecord := ⟨none, none, "Jy", "spaxel"⟩

/-- Controller state whose alias table has the empty string as a key and a
malformed record under an unparseable key. -/
def fucOddTable : FUCState :=
  ⟨[("", recGood), ("badunit", recBad)], [], FLUX_UNIT_REGISTRY_init⟩

/-- Controller state with one registered alias FLAM. -/
def fucFlam : FUCState := ⟨[("FLAM", recGood)], [], FLUX_UNIT_REGISTRY_init⟩

/-- Controller state with an empty alias table. -/
def fucEmptyTable : FUCState := ⟨[], [], FLUX_UNIT_REGISTRY_init⟩

/-- Component map fixture: a NoneUnit component and an unparseable
UnknownUnit component. -/
def fucComponents : FUCState :=
  ⟨[], [("mask", CubeVizUnit.NoneUnit),
        ("weird", CubeVizUnit.UnknownUnit none "glorp")], FLUX_UNIT_REGISTRY_init⟩

/-- UnitController state with wavelengths 1, 2, 3 meters and redshift 0. -/
def ucMeters : UCState :=
  ⟨some [1, 2, 3], PyVal.vals [], u_m, u_m, 0, "Wavelength", none⟩

/-- UnitController state whose layout had no wavelength array. -/
def ucNoWavelengths : UCState :=
  ⟨none, PyVal.vals [], u_m, u_m, 0, "Wavelength", none⟩

/-- Global unit state in which the name Jy is already defined. -/
def gJy : GlobalUnits :=
  ⟨⟨[("Jy", u_Jy)]⟩, FLUX_UNIT_REGISTRY_init, AREA_UNIT_REGISTRY_init⟩

/-! ## Claim theorems -/

/-- Claim C2: for every sequence of add_unit, add_pixel_unit and
add_solid_angle_unit calls, including duplicate insertions and mixed string
and unit-object arguments, every subsequent get_unit_list result contains
no duplicate string entries and is sorted in ascending lexicographic
order. -/
theorem registry_listings_sorted_and_nodup
    (fluxOps : List RegItem) (areaOps : List AreaOp)
    (pixel_only solid_angle_only : Bool) :
    ((applyFluxOps fluxOps FLUX_UNIT_REGISTRY_init).get_unit_list).Nodup ∧
    ((applyFluxOps fluxOps FLUX_UNIT_REGISTRY_init).get_unit_list).Sorted
      (fun a b => a ≤ b) ∧
    ((applyAreaOps areaOps AREA_UNIT_REGISTRY_init).get_unit_list
        pixel_only solid_angle_only).Nodup ∧
    ((applyAreaOps areaOps AREA_UNIT_REGISTRY_init).get_unit_list
        pixel_only solid_angle_only).Sorted (fun a b => a ≤ b) :=
  ⟨pySortedSet_nodup _, pySortedSet_sorted _,
   pySortedSet_nodup _, pySortedSet_sorted _⟩

/-- Claim C3: for every present original wavelength sequence and every new
redshift value different from the current one, the redshift_z setter
succeeds, the stored wavelength state ends as original divided by one plus
the new redshift, and the label becomes the rest-wavelength text when the
new redshift is positive and the observed-wavelength text otherwise. -/
theorem redshift_setter_final_state (s : UCState) (ws : List ℚ) (new_z : ℚ)
    (horig : s.original_wavelengths = some ws)
    (hne : new_z ≠ s.redshift_z) :
    ∃ s' evs, set_redshift_z s new_z = Except.ok (s', evs) ∧
      s'.wavelengths = some (ws.map (fun w => w / (1 + new_z))) ∧
      s'.redshift_z = new_z ∧
      s'.wavelength_textbox_label =
        (if 0 < new_z then REST_WAVELENGTH_TEXT else OBS_WAVELENGTH_TEXT) := by
  have hcond : ¬ (s.redshift_z = new_z) := fun h => hne h.symm
  unfold set_redshift_z
  rw [if_neg hcond, horig]
  refine ⟨_, _, rfl, ?_, ?_, ?_⟩ <;> by_cases hz : 0 < new_z <;> simp [hz]

/-- Witness for claim C3 at the spec's example: original wavelengths
1, 2, 3 meters, redshift set from 0 to 1, giving 1/2, 1, 3/2 and the
rest-wavelength label. -/
theorem redshift_setter_final_state_witness :
    ∃ s' evs, set_redshift_z ucMeters 1 = Except.ok (s', evs) ∧
      s'.wavelengths = some (([1, 2, 3] : List ℚ).map (fun w => w / (1 + 1))) ∧
      s'.redshift_z = 1 ∧
      s'.wavelength_textbox_label =
        (if (0 : ℚ) < 1 then REST_WAVELENGTH_TEXT else OBS_WAVELENGTH_TEXT) ∧
      (([1, 2, 3] : List ℚ).map (fun w => w / (1 + 1))) = [1/2, 1, 3/2] ∧
      (if (0 : ℚ) < 1 then REST_WAVELENGTH_TEXT else OBS_WAVELENGTH_TEXT) =
        REST_WAVELENGTH_TEXT := by
  obtain ⟨s', evs, h₁, h₂, h₃, h₄⟩ :=
    redshift_setter_final_state ucMeters [1, 2, 3] 1 rfl (by norm_num [ucMeters])
  exact ⟨s', evs, h₁, h₂, h₃, h₄, by norm_num, by norm_num⟩

/-- Claim C4: assigning redshift_z its current value, directly or through
the change_redshift listener, changes no state and produces no outward
call: no label propagation, no wavelength push, no channel broadcast. -/
theorem redshift_same_value_noop (s : UCState) :
    set_redshift_z s s.redshift_z = Except.ok (s, []) ∧
    change_redshift s s.redshift_z = Except.ok (s, []) := by
  constructor <;> simp [set_redshift_z, change_redshift]

/-- Claim C5: convert_wavelengths multiplies every present value by the
ratio of the SI factors, which is dimensionally exact: each output value
denotes the same physical length as its input; the spec instance of
1000 nanometers giving 10000 angstroms holds; a None input yields the
False sentinel rather than an exception. -/
theorem convert_wavelengths_exact (ws : List ℚ) (old_units new_units : AUnit)
    (h : new_units.si ≠ 0) :
    convert_wavelengths (some ws) old_units new_units =
      PyVal.vals (ws.map (fun w => w * old_units.si / new_units.si)) ∧
    (∀ w : ℚ, (w * old_units.si / new_units.si) * new_units.si = w * old_units.si) ∧
    convert_wavelengths none old_units new_units = PyVal.falseV ∧
    convert_wavelengths (some [1000]) u_nm u_AA = PyVal.vals [10000] := by
  refine ⟨rfl, ?_, rfl, ?_⟩
  · intro w
    field_simp
  · show PyVal.vals [(1000 : ℚ) * u_nm.si / u_AA.si] = PyVal.vals [10000]
    norm_num [u_nm, u_AA]

/-- Witness for claim C5 at nanometer to angstrom conversion. -/
theorem convert_wavelengths_exact_witness :
    u_AA.si ≠ 0 ∧
    convert_wavelengths (some [1000]) u_nm u_AA =
      PyVal.vals ([(1000 : ℚ)].map (fun w => w * u_nm.si / u_AA.si)) ∧
    ((1000 : ℚ) * u_nm.si / u_AA.si) * u_AA.si = 1000 * u_nm.si ∧
    convert_wavelengths none u_nm u_AA = PyVal.falseV ∧
    convert_wavelengths (some [1000]) u_nm u_AA = PyVal.vals [10000] := by
  have hAA : u_AA.si ≠ 0 := by norm_num [u_AA]
  obtain ⟨h₁, h₂, h₃, h₄⟩ := convert_wavelengths_exact [1000] u_nm u_AA hAA
  exact ⟨hAA, h₁, h₂ 1000, h₃, h₄⟩

lemma unit_mem_runtime_add_unit (r : FluxUnitRegistry) (a : AUnit) :
    RegItem.unit a ∈ (r.add_unit (RegItem.unit a)).runtime_defined_units := by
  by_cases h : RegItem.unit a ∈ r.runtime_defined_units
  · simp [FluxUnitRegistry.add_unit, h]
  · simp [FluxUnitRegistry.add_unit, h]

lemma str_mem_get_unit_list (r : FluxUnitRegistry) (a : AUnit)
    (h : RegItem.unit a ∈ r.runtime_defined_units) :
    a.str ∈ r.get_unit_list := by
  simp only [FluxUnitRegistry.get_unit_list]
  rw [mem_pySortedSet, List.mem_filterMap]
  exact ⟨RegItem.unit a, List.mem_append_right _ h, rfl⟩

/-- The registered-alias branch of add_component_unit: a non-empty string
found in the alias table whose record has a truthy numeric or a parseable
effective unit string yields the formatted SpectralFluxDensity and its
registry side effect. -/
lemma add_component_unit_registered_ok (us : UnitSystem) (st : FUCState)
    (cid : String) (unitArg : UnitArg) (s : String) (rec : AliasRecord)
    (hts : unit_to_string unitArg = Except.ok s)
    (hne : s ≠ "")
    (hkey : st.registered_units.lookup s = some rec)
    (hwf : numericTruthy rec.numeric = true ∨
        (string_to_unit us (effective_unit_string rec s)).isSome = true) :
    ∃ n, add_component_unit us st cid unitArg =
      Except.ok
        (CubeVizUnit.SpectralFluxDensity
            (string_to_unit us (effective_unit_string rec s))
            (effective_unit_string rec s) n
            (string_to_unit us rec.spectral_flux_density)
            (string_to_unit us rec.area) true,
         { st with
             flux := st.flux.add_unit
               (match string_to_unit us rec.spectral_flux_density with
                | some a => RegItem.unit a
                | none => RegItem.pynone),
             components := dictSet st.components cid
               (CubeVizUnit.SpectralFluxDensity
                 (string_to_unit us (effective_unit_string rec s))
                 (effective_unit_string rec s) n
                 (string_to_unit us rec.spectral_flux_density)
                 (string_to_unit us rec.area) true) }) := by
  by_cases hnum : numericTruthy rec.numeric = true
  · exact ⟨rec.numeric.getD 0,
      by simp [add_component_unit, hts, hne, hkey, hnum, mkSpectralFluxDensity]⟩
  · have hp : (string_to_unit us (effective_unit_string rec s)).isSome = true := by
      rcases hwf with h | h
      · exact absurd h hnum
      · exact h
    obtain ⟨a, ha⟩ := Option.isSome_iff_exists.mp hp
    exact ⟨a.scale,
      by simp [add_component_unit, hts, hne, hkey, hnum, ha, mkSpectralFluxDensity]⟩

/-- The non-registered branches of add_component_unit never raise; with a
well-formed alias table no branch raises at all once unit_to_string has
produced a string. -/
lemma add_component_unit_ok_aux (us : UnitSystem) (st : FUCState)
    (cid : String) (unitArg : UnitArg) (s : String)
    (hts : unit_to_string unitArg = Except.ok s)
    (htable : ∀ s₀ rec, st.registered_units.lookup s₀ = some rec →
        numericTruthy rec.numeric = true ∨
        (string_to_unit us (effective_unit_string rec s₀)).isSome = true) :
    (classifiedUnit (add_component_unit us st cid unitArg)).isSome = true := by
  by_cases hne : s = ""
  · subst hne
    simp [add_component_unit, hts, classifiedUnit]
  · cases hkey : st.registered_units.lookup s with
    | some rec =>
        obtain ⟨n, hn⟩ :=
          add_component_unit_registered_ok us st cid unitArg s rec hts hne hkey
            (htable s rec hkey)
        simp [hn, classifiedUnit]
    | none =>
        cases hparse : string_to_unit us s with
        | some a =>
            by_cases hphys : "spectral flux density" ∈ a.physicalType
            · simp [add_component_unit, hts, hne, hkey, hparse, hphys,
                classifiedUnit, mkSpectralFluxDensity]
            · simp [add_component_unit, hts, hne, hkey, hparse, hphys, classifiedUnit]
        | none =>
            simp [add_component_unit, hts, hne, hkey, hparse, classifiedUnit]

/-- Claim C8 is violated by the code: with the original wavelength array
absent, convert_wavelengths returns the False sentinel, the caller's guard
tests the result against None, so the guard does not fire and the False
value is pushed to the layout as a wavelength update. -/
theorem on_combobox_change_forwards_false_sentinel :
    on_combobox_change ucNoWavelengths "Meter" =
      Except.ok
        ({ ucNoWavelengths with
             new_units := u_m, new_wavelengths := PyVal.falseV },
         [UCEvent.layoutSetWavelengths PyVal.falseV u_m]) := by
  rfl

/-- Claim C1, amended: an input whose string form is empty or absent is
always classified NoneUnit, even when the empty string is itself a key of
the alias table; and every input whose non-empty string form is a key of
the alias table, provided the record has a truthy numeric or a parseable
effective unit string, is classified SpectralFluxDensity with is_formatted
set. -/
theorem add_component_unit_classification :
    (∀ (us : UnitSystem) (st : FUCState) (cid : String) (unitArg : UnitArg),
       unit_to_string unitArg = Except.ok "" →
       add_component_unit us st cid unitArg =
         Except.ok (CubeVizUnit.NoneUnit,
           { st with
               components := dictSet st.components cid CubeVizUnit.NoneUnit })) ∧
    (∀ (us : UnitSystem) (st : FUCState) (cid : String) (unitArg : UnitArg)
       (s : String) (rec : AliasRecord),
       unit_to_string unitArg = Except.ok s → s ≠ "" →
       st.registered_units.lookup s = some rec →
       (numericTruthy rec.numeric = true ∨
         (string_to_unit us (effective_unit_string rec s)).isSome = true) →
       (classifiedUnit (add_component_unit us st cid unitArg)).map
           CubeVizUnit.isFormattedSFD = some true) := by
  constructor
  · intro us st cid unitArg h
    cases unitArg with
    | pynone => simp [add_component_unit, unit_to_string]
    | str s =>
        simp [unit_to_string] at h
        subst h
        simp [add_component_unit, unit_to_string]
    | unit a =>
        simp [unit_to_string] at h
        simp [add_component_unit, unit_to_string, h]
    | quantity a =>
        simp [unit_to_string] at h
        simp [add_component_unit, unit_to_string, h]
    | other d => simp [unit_to_string] at h
  · intro us st cid unitArg s rec hts hne hkey hwf
    obtain ⟨n, hn⟩ :=
      add_component_unit_registered_ok us st cid unitArg s rec hts hne hkey hwf
    simp [hn, classifiedUnit, CubeVizUnit.isFormattedSFD]

/-- Counterexample to claim C1 as stated: the empty string is a key of the
alias table of fucOddTable, yet classification of the empty string gives
NoneUnit, not a formatted SpectralFluxDensity; and the key badunit is
present, yet classification raises an AttributeError because the record's
numeric is falsy and its unit string does not parse. -/
theorem add_component_unit_registered_key_counterexample :
    fucOddTable.registered_units.lookup "" = some recGood ∧
    classifiedUnit (add_component_unit usStd fucOddTable "id" (UnitArg.str "")) =
      some CubeVizUnit.NoneUnit ∧
    fucOddTable.registered_units.lookup "badunit" = some recBad ∧
    add_component_unit usStd fucOddTable "id2" (UnitArg.str "badunit") =
      Except.error (PyErr.attributeError "NoneType object has no attribute scale") :=
  ⟨rfl, rfl, rfl, rfl⟩

/-- Witness for claim C1: a None input is classified NoneUnit, and the
registered alias FLAM is classified as a formatted SpectralFluxDensity. -/
theorem add_component_unit_classification_witness :
    add_component_unit usStd fucFlam "mask" UnitArg.pynone =
      Except.ok (CubeVizUnit.NoneUnit,
        { fucFlam with
            components := dictSet fucFlam.components "mask" CubeVizUnit.NoneUnit }) ∧
    (classifiedUnit (add_component_unit usStd fucFlam "flux" (UnitArg.str "FLAM"))).map
        CubeVizUnit.isFormattedSFD = some true :=
  ⟨add_component_unit_classification.1 usStd fucFlam "mask" UnitArg.pynone rfl,
   add_component_unit_classification.2 usStd fucFlam "flux" (UnitArg.str "FLAM")
     "FLAM" recGood rfl (by decide) rfl (Or.inl (by decide))⟩

/-- Claim C6, amended: for every unit argument of one of the accepted
types (None, string, unit object, Quantity) and every alias table whose
looked-up records have a truthy numeric or a parseable effective unit
string, add_component_unit returns a CubeVizUnit and does not raise. -/
theorem add_component_unit_no_raise (us : UnitSystem) (st : FUCState)
    (cid : String) (unitArg : UnitArg)
    (hvalid : unitArg.isValidType = true)
    (htable : ∀ s₀ rec, st.registered_units.lookup s₀ = some rec →
        numericTruthy rec.numeric = true ∨
        (string_to_unit us (effective_unit_string rec s₀)).isSome = true) :
    (classifiedUnit (add_component_unit us st cid unitArg)).isSome = true := by
  cases unitArg with
  | pynone => exact add_component_unit_ok_aux us st cid _ "" rfl htable
  | str s => exact add_component_unit_ok_aux us st cid _ s rfl htable
  | unit a => exact add_component_unit_ok_aux us st cid _ a.str rfl htable
  | quantity a => exact add_component_unit_ok_aux us st cid _ a.str rfl htable
  | other d => simp [UnitArg.isValidType] at hvalid

/-- Counterexample to claim C6 as stated: an argument of an invalid type
(for example an integer) makes add_component_unit raise ValueError through
unit_to_string rather than return a CubeVizUnit. -/
theorem add_component_unit_invalid_type_counterexample :
    add_component_unit usStd fucEmptyTable "id" (UnitArg.other "int") =
      Except.error (PyErr.valueError "Invalid input unit type int.") :=
  rfl

/-- Witness for claim C6: classifying the string Jy with an empty alias
table succeeds. -/
theorem add_component_unit_no_raise_witness :
    (classifiedUnit
        (add_component_unit usStd fucEmptyTable "flux" (UnitArg.str "Jy"))).isSome =
      true :=
  add_component_unit_no_raise usStd fucEmptyTable "flux" (UnitArg.str "Jy") rfl
    (fun s₀ rec h => by simp [List.lookup] at h)

/-- Claim C7 is violated by the code: when the first configured new unit
has a name that is already defined, the except branch that assigns
new_astropy_unit never runs, and the register_new_unit call reads an
unbound local, a NameError; after a previous successful iteration the
stale value is registered again in place of the existing definition. -/
theorem new_units_loop_unbound_and_stale :
    load_new_units_loop gJy [⟨"Jy", none⟩] none =
      Except.error (PyErr.nameError "name new_astropy_unit is not defined") ∧
    load_new_units_loop gJy [⟨"FLAM16", none⟩, ⟨"Jy", none⟩] none =
      Except.ok
        (register_new_unit (register_new_unit gJy (def_unit "FLAM16" none))
          (def_unit "FLAM16" none)) :=
  ⟨rfl, rfl⟩

/-- Claim C9: classifying a non-empty registered alias string whose record
names a parseable spectral flux density sub-unit yields a convertible,
formatted SpectralFluxDensity carrying that sub-unit, and the sub-unit's
string subsequently appears in the flux registry listing. -/
theorem registered_alias_roundtrip (us : UnitSystem) (st : FUCState)
    (cid s : String) (rec : AliasRecord) (sfdU : AUnit)
    (hne : s ≠ "")
    (hkey : st.registered_units.lookup s = some rec)
    (hsfd : string_to_unit us rec.spectral_flux_density = some sfdU)
    (hwf : numericTruthy rec.numeric = true ∨
        (string_to_unit us (effective_unit_string rec s)).isSome = true) :
    ∃ cvu st', add_component_unit us st cid (UnitArg.str s) = Except.ok (cvu, st') ∧
      cvu.is_convertable = true ∧
      cvu.isFormattedSFD = true ∧
      cvu.sfd = some (some sfdU) ∧
      sfdU.str ∈ st'.flux.get_unit_list := by
  obtain ⟨n, hn⟩ :=
    add_component_unit_registered_ok us st cid (UnitArg.str s) s rec rfl hne hkey hwf
  refine ⟨_, _, hn, rfl, rfl, ?_, ?_⟩
  · simp [CubeVizUnit.sfd, hsfd]
  · show sfdU.str ∈
      (st.flux.add_unit
        (match string_to_unit us rec.spectral_flux_density with
         | some a => RegItem.unit a
         | none => RegItem.pynone)).get_unit_list
    rw [hsfd]
    exact str_mem_get_unit_list _ _ (unit_mem_runtime_add_unit st.flux sfdU)

/-- Witness for claim C9: the alias FLAM resolves to a formatted
SpectralFluxDensity whose sub-unit Jy appears in the resulting flux
registry listing. -/
theorem registered_alias_roundtrip_witness :
    ∃ cvu st', add_component_unit usStd fucFlam "flux" (UnitArg.str "FLAM") =
        Except.ok (cvu, st') ∧
      cvu.is_convertable = true ∧
      cvu.isFormattedSFD = true ∧
      cvu.sfd = some (some u_Jy) ∧
      u_Jy.str ∈ st'.flux.get_unit_list :=
  registered_alias_roundtrip usStd fucFlam "flux" "FLAM" recGood u_Jy
    (by decide) rfl (by decide) (Or.inl (by decide))

/-- Claim C10: get_component_unit answers None both for a component
identifier absent from the component map and for a present component
classified NoneUnit or UnknownUnit with an unparseable unit string, so the
query alone cannot distinguish the three situations. -/
theorem get_component_unit_none_cases (st : FUCState) (component_id : String)
    (h : st.components.lookup component_id = none ∨
         st.components.lookup component_id = some CubeVizUnit.NoneUnit ∨
         ∃ s, st.components.lookup component_id =
           some (CubeVizUnit.UnknownUnit none s)) :
    get_component_unit st component_id = none := by
  unfold get_component_unit
  rcases h with h | h | ⟨s, h⟩ <;> rw [h] <;> rfl

/-- Witness for claim C10 at a concrete component map: an absent id, a
NoneUnit component and an unparseable UnknownUnit component all answer
None. -/
theorem get_component_unit_none_cases_witness :
    get_component_unit fucComponents "absent" = none ∧
    get_component_unit fucComponents "mask" = none ∧
    get_component_unit fucComponents "weird" = none :=
  ⟨get_component_unit_none_cases fucComponents "absent" (Or.inl rfl),
   get_component_unit_none_cases fucComponents "mask" (Or.inr (Or.inl rfl)),
   get_component_unit_none_cases fucComponents "weird"
     (Or.inr (Or.inr ⟨"glorp", rfl⟩))⟩

end Cubeviz
